import Mathlib

/-!
Shallow embedding of the Zillow web-scraper (Itachi4/webScraping).

The repository ships three copies of the same pipeline:
* `src/scrape.ts` — an Express handler that validates the body, launches a
  browser, resolves a Zillow URL through Bing, normalizes it to end with a
  trailing "/", and runs a pagination loop that stops on an empty page;
* `src/controllers/scraper.controller.ts` + `src/services/zillow.service.ts`
  — the same pipeline without URL normalization and whose pagination loop
  does not stop on an empty page;
* a single-page variant whose extractor also reads beds/baths.

Browser I/O (navigation, typing, scrolling waits) is modelled by an explicit
environment: what the resolver returns, whether each `page.goto` succeeds,
and what the in-page extraction script returns on each page cursor.  The
definitions below mirror the TypeScript control flow statement by statement.
-/

namespace WebScraping

/-! ## String helpers

JavaScript's `String.prototype.includes` / `endsWith` modelled on character
lists. -/

/-- `listHasPre l p` is true iff `p` is a prefix of `l` (pointwise `==`). -/
def listHasPre : List Char → List Char → Bool
  | _, [] => true
  | [], _ :: _ => false
  | a :: as, b :: bs => a == b && listHasPre as bs

/-- `listHasSub needle hay` is true iff `needle` occurs contiguously in `hay`. -/
def listHasSub (needle : List Char) : List Char → Bool
  | [] => listHasPre [] needle
  | c :: rest => listHasPre (c :: rest) needle || listHasSub needle rest

/-- JS `hay.includes(needle)` (case-sensitive substring test). -/
def containsSubstr (hay needle : String) : Bool :=
  listHasSub needle.toList hay.toList

/-- JS `s.endsWith(suffixStr)`. -/
def strEndsWith (s sfx : String) : Bool :=
  listHasPre s.toList.reverse sfx.toList.reverse

/-- The white-space class JS `trim` strips (ASCII part). -/
def isJsSpace (c : Char) : Bool :=
  c == ' ' || c == '\t' || c == '\n' || c == '\r' || c == '\x0b' || c == '\x0c'

/-- JS `s.trim()`: drop leading and trailing white space. -/
def jsTrim (s : String) : String :=
  String.mk (((s.toList.dropWhile isJsSpace).reverse.dropWhile isJsSpace).reverse)

/-! ## Data model -/

/-- The `Listing` interface: every field may be absent (`null` / omitted).
The single-page variant also fills `beds`/`baths`; the paginating variants
leave them absent. -/
structure Listing where
  price : Option String
  address : Option String
  link : Option String
  beds : Option String
  baths : Option String
deriving DecidableEq

/-- One property-card DOM container, as the extraction script reads it:
the `textContent` of the price / address child if that child exists, the
`href` attribute of the link child if present, and the `textContent`s of the
`li` entries of the details list. -/
structure Card where
  priceText : Option String
  addrText : Option String
  linkHref : Option String
  details : List (Option String)
deriving DecidableEq

/-! ## Listing Extractor
From the `page.evaluate` scripts in `scrapeZillowListings`
(`src/services/puppeteer.service.ts` and the beds/baths variant). -/

/-- `el?.textContent?.trim() || null`: a missing element or null text gives
`null`; text trimming to the empty string is falsy, so it also gives `null`. -/
def cleanText : Option String → Option String
  | none => none
  | some t => if jsTrim t = "" then none else some (jsTrim t)

/-- `let link = el?.getAttribute("href"); link = link ? new URL(link, base).href
: null`.  `resolve` stands for WHATWG URL resolution against the page origin. -/
def resolveLink (resolve : String → String) : Option String → Option String
  | none => none
  | some h => if h = "" then none else some (resolve h)

/-- `detailsList[i]?.textContent`: the text of the `i`-th details entry when
the list is long enough and that entry's text is not null. -/
def nthText (l : List (Option String)) (i : Nat) : Option String :=
  (l.get? i).join

/-- The per-card body of the extraction `forEach`.  `withDetails` selects the
variant that also reads the details list (`beds` = entry 0, `baths` = entry 1,
each only when the list is long enough). -/
def extractCard (withDetails : Bool) (resolve : String → String) (card : Card) :
    Listing where
  price := cleanText card.priceText
  address := cleanText card.addrText
  link := resolveLink resolve card.linkHref
  beds := if withDetails then cleanText (nthText card.details 0) else none
  baths := if withDetails then cleanText (nthText card.details 1) else none

/-- The extraction script: `cards.forEach((card) => { ...; results.push(...) })`
— one record pushed per card, in document order. -/
def extractListings (withDetails : Bool) (resolve : String → String)
    (cards : List Card) : List Listing :=
  cards.foldl (fun acc card => acc ++ [extractCard withDetails resolve card]) []

/-! ## Search Resolver
From the result-extraction `page.evaluate` in `getZillowURL`. -/

/-- One `h2 > a` search-result anchor: its `textContent` and `href` attribute,
each possibly null. -/
structure Anchor where
  text : Option String
  href : Option String
deriving DecidableEq

/-- `(el) => el.textContent?.includes("Zillow")` — null text is not a match. -/
def anchorMatches (a : Anchor) : Bool :=
  match a.text with
  | none => false
  | some t => containsSubstr t "Zillow"

/-- The extraction step of `getZillowURL`: `searchResults.find(matches)` then
`zillowResult ? zillowResult.getAttribute("href") : null`. -/
def getZillowURL (anchors : List Anchor) : Option String :=
  match anchors.find? anchorMatches with
  | some a => a.href
  | none => none

/-! ## Pagination Controller
From `scrapeZillowListings` in `src/scrape.ts` (stops on an empty page) and in
`src/services/zillow.service.ts` (does not). -/

/-- `const maxPages = 4`. -/
def maxPages : Nat := 4

/-- `const nextPageUrl = baseUrl + pageCounter + "_p/"`. -/
def pageUrl (base : String) (n : Nat) : String :=
  base ++ toString n ++ "_p/"

/-- `const baseUrl = zillowUrl.endsWith("/") ? zillowUrl : zillowUrl + "/"`
(`src/scrape.ts`, before pagination). -/
def normalizeUrl (u : String) : String :=
  if strEndsWith u "/" then u else u ++ "/"

/-- Whether a string ends in exactly one path separator. -/
def endsWithOneSep (s : String) : Bool :=
  strEndsWith s "/" && !strEndsWith s "//"

/-- Trace of one run of the pagination loop: the accumulated listings, every
`page.goto` target issued by the loop in order, the cursor values on which the
extraction script ran, and the target of a failed navigation, if one aborted
the loop. -/
structure LoopTrace where
  listings : List Listing
  navs : List String
  visited : List Nat
  navFail : Option String
deriving DecidableEq

/-- The `while (pageCounter <= maxPages)` loop body, fuelled by the number of
remaining iterations (`fuel = maxPages - counter + 1` at entry).  At cursor
`counter`: extract (`ext counter`); in the stop-on-empty variant an empty
result breaks before the cursor advances; otherwise append, increment the
cursor, and `page.goto` the next page URL — a failed navigation aborts the
whole operation. -/
def pageLoop (stopOnEmpty : Bool) (ext : Nat → List Listing)
    (navOk : String → Bool) (base : String) : Nat → Nat → LoopTrace
  | 0, _ => ⟨[], [], [], none⟩
  | fuel + 1, counter =>
    let listings := ext counter
    if stopOnEmpty && listings.isEmpty then ⟨[], [], [counter], none⟩
    else
      let url := pageUrl base (counter + 1)
      if navOk url then
        let t := pageLoop stopOnEmpty ext navOk base fuel (counter + 1)
        ⟨listings ++ t.listings, url :: t.navs, counter :: t.visited, t.navFail⟩
      else ⟨listings, [url], [counter], some url⟩

/-- `scrapeZillowListings(page, baseUrl)`: the loop from `pageCounter = 1`
with `maxPages = 4`.  `stopOnEmpty = true` is the `src/scrape.ts` variant,
`false` the `src/services/zillow.service.ts` variant. -/
def scrapeZillowListings (stopOnEmpty : Bool) (ext : Nat → List Listing)
    (navOk : String → Bool) (base : String) : LoopTrace :=
  pageLoop stopOnEmpty ext navOk base maxPages 1

/-- `[s, s+1, ..., s+n-1]`: the cursor values of `n` consecutive loop
iterations starting at `s`. -/
def cursorRange (s : Nat) : Nat → List Nat
  | 0 => []
  | n + 1 => s :: cursorRange (s + 1) n

/-- Concatenation of per-page extraction results over a list of cursors. -/
def concatMap (f : Nat → List Listing) : List Nat → List Listing
  | [] => []
  | n :: ns => f n ++ concatMap f ns

/-! ## Scrape Orchestrator
From `app.post("/scrape")` in `src/scrape.ts` and `scrapeListings` in
`src/controllers/scraper.controller.ts`. -/

/-- The environment one scrape operation runs against: whether the browser
launches, what `getZillowURL` returns, which `page.goto` targets succeed, and
what the extraction script returns on each page cursor. -/
structure ScrapeEnv where
  launchOk : Bool
  resolved : Option String
  navOk : String → Bool
  ext : Nat → List Listing

/-- The JSON body the handler sends back. -/
inductive RespBody where
  | ok (searchQuery city : String) (listings : List Listing)
  | err (msg : String)
deriving DecidableEq

/-- Observable outcome of one handler run: HTTP status, response body, how
many times the browser was launched, how many times the Search Resolver was
invoked, how many times `browser.close()` ran, and every post-resolution
`page.goto` target in order. -/
structure ScrapeResult where
  status : Nat
  body : RespBody
  launches : Nat
  resolverCalls : Nat
  closes : Nat
  navs : List String
deriving DecidableEq

/-- The try-block of `app.post("/scrape")` in `src/scrape.ts`, after
validation: launch; resolve; throw `"No Zillow link found in search results."`
on absence; normalize the URL; `page.goto(baseUrl)`; run the stop-on-empty
pagination loop; `browser.close()`; respond 200.  The catch block answers 500
with the stringified error and — notably — never closes the browser
(`closes = 0` on every failure path after launch).  A launch failure or a
navigation failure surfaces the environment-supplied error, abstracted here
as a fixed tag. -/
def scrapeCoreS (env : ScrapeEnv) (q c : String) : ScrapeResult :=
  if env.launchOk then
    match env.resolved with
    | none =>
      ⟨500, .err "Error: No Zillow link found in search results.", 1, 1, 0, []⟩
    | some url =>
      let base := normalizeUrl url
      if env.navOk base then
        let t := scrapeZillowListings true env.ext env.navOk base
        match t.navFail with
        | some u => ⟨500, .err ("NavigationError: " ++ u), 1, 1, 0, base :: t.navs⟩
        | none => ⟨200, .ok q c t.listings, 1, 1, 1, base :: t.navs⟩
      else ⟨500, .err ("NavigationError: " ++ base), 1, 1, 0, [base]⟩
  else ⟨500, .err "LaunchError", 0, 0, 0, []⟩

/-- The try-block of `scrapeListings` in `scraper.controller.ts`, after
validation: identical flow except the resolved URL is passed to navigation and
pagination unnormalized, the pagination loop does not stop on an empty page,
and the absence error reads `"No Zillow link found."`.  Its catch block also
never closes the browser. -/
def scrapeCoreC (env : ScrapeEnv) (q c : String) : ScrapeResult :=
  if env.launchOk then
    match env.resolved with
    | none => ⟨500, .err "Error: No Zillow link found.", 1, 1, 0, []⟩
    | some url =>
      if env.navOk url then
        let t := scrapeZillowListings false env.ext env.navOk url
        match t.navFail with
        | some u => ⟨500, .err ("NavigationError: " ++ u), 1, 1, 0, url :: t.navs⟩
        | none => ⟨200, .ok q c t.listings, 1, 1, 1, url :: t.navs⟩
      else ⟨500, .err ("NavigationError: " ++ url), 1, 1, 0, [url]⟩
  else ⟨500, .err "LaunchError", 0, 0, 0, []⟩

/-- The JSON request body: `query` and `city`, each possibly missing. -/
structure RequestBody where
  query : Option String
  city : Option String

/-- JS falsiness of `req.body.query` / `req.body.city`: a missing field
(`undefined`) and the empty string are both falsy. -/
def jsFalsy : Option String → Bool
  | none => true
  | some s => s == ""

/-- The 400 payload sent on validation failure. -/
def validationErr : RespBody :=
  .err "Please provide both \"query\" and \"city\"."

/-- The full `src/scrape.ts` handler: `if (!query || !city)` answer 400 and
return, otherwise run the core. -/
def scrapeHandlerS (env : ScrapeEnv) (b : RequestBody) : ScrapeResult :=
  if jsFalsy b.query || jsFalsy b.city then ⟨400, validationErr, 0, 0, 0, []⟩
  else scrapeCoreS env (b.query.getD "") (b.city.getD "")

/-- The full `scrapeListings` controller, same validation. -/
def scrapeHandlerC (env : ScrapeEnv) (b : RequestBody) : ScrapeResult :=
  if jsFalsy b.query || jsFalsy b.city then ⟨400, validationErr, 0, 0, 0, []⟩
  else scrapeCoreC env (b.query.getD "") (b.city.getD "")

/-! ## Scroll Driver
From `autoScroll`: each 300 ms tick does `scrollBy(0, 100); totalHeight += 100`
and stops the timer once `totalHeight >= document.body.scrollHeight`, with the
height re-read at that tick.  `h n` is the content height the `n`-th tick
reads. -/

/-- Scroll loop state: the accumulated distance and whether the interval timer
has been cleared. -/
structure ScrollState where
  total : Nat
  stopped : Bool
deriving DecidableEq

/-- One `setInterval` tick against the height `hgt` it reads. -/
def scrollStep (hgt : Nat) (s : ScrollState) : ScrollState :=
  if s.stopped then s
  else ⟨s.total + 100, decide (hgt ≤ s.total + 100)⟩

/-- The state after `n` ticks against the height sequence `h`. -/
def scrollRun (h : Nat → Nat) : Nat → ScrollState
  | 0 => ⟨0, false⟩
  | n + 1 => scrollStep (h n) (scrollRun h n)

/-- A height sequence that grows without bound. -/
def unboundedSeq (h : Nat → Nat) : Prop :=
  ∀ B, ∃ n, B < h n

/-- A height sequence that grows without bound — by one pixel per tick — yet
is overtaken by the 100 px-per-tick scroll on the second tick. -/
def slowGrowth (n : Nat) : Nat := n + 101

/-! ## Concrete fixtures -/

/-- A sample extracted record. -/
def sampleListing : Listing :=
  ⟨some "$500,000", some "123 Main St, New York, NY", some "https://z/l1", none, none⟩

/-- Environment for a clean success run: one listing on page 1, nothing after. -/
def envSuccess : ScrapeEnv :=
  ⟨true, some "https://z/chicago-il/", fun _ => true,
   fun n => if n = 1 then [sampleListing] else []⟩

/-- Environment where search resolution finds no Zillow link. -/
def envTNF : ScrapeEnv :=
  ⟨true, none, fun _ => true, fun n => if n = 1 then [sampleListing] else []⟩

/-- Environment where every page has listings but the page-2 navigation
fails mid-pagination. -/
def envNavFail : ScrapeEnv :=
  ⟨true, some "https://z/chicago-il/", fun u => !(u == "https://z/chicago-il/2_p/"),
   fun _ => [sampleListing]⟩

/-- Environment whose resolved URL lacks a trailing slash. -/
def envNoSlash : ScrapeEnv :=
  ⟨true, some "https://z/chicago-il", fun _ => true, fun _ => []⟩

/-- Extractor returning one record on page 1 and nothing on page 2. -/
def extStopW : Nat → List Listing :=
  fun j => if j = 1 then [sampleListing] else []

/-! ## Helper lemmas -/

theorem foldl_push_eq_map (f : Card → Listing) (cards : List Card)
    (acc : List Listing) :
    cards.foldl (fun a c => a ++ [f c]) acc = acc ++ cards.map f := by
  induction cards generalizing acc with
  | nil => simp
  | cons c cs ih => simp [ih]

theorem extractListings_eq_map (w : Bool) (r : String → String) (cards : List Card) :
    extractListings w r cards = cards.map (extractCard w r) := by
  simpa using foldl_push_eq_map (extractCard w r) cards []

theorem strEndsWith_append_slash (u : String) : strEndsWith (u ++ "/") "/" = true := by
  simp [strEndsWith, String.toList, String.data_append, listHasPre]

theorem normalizeUrl_endsWith (u : String) :
    strEndsWith (normalizeUrl u) "/" = true := by
  unfold normalizeUrl
  by_cases h : strEndsWith u "/" = true
  · simp [h]
  · simp [h, strEndsWith_append_slash]

theorem cleanText_of_blank (t : String) (h : jsTrim t = "") :
    cleanText (some t) = none := by
  simp [cleanText, h]

theorem cleanText_ne_emptyStr (o : Option String) : cleanText o ≠ some "" := by
  match o with
  | none => simp [cleanText]
  | some t =>
    simp only [cleanText]
    by_cases h : jsTrim t = ""
    · simp [h]
    · simp [h]

theorem find?_first_match (pre post : List Anchor) (a : Anchor)
    (hpre : ∀ b ∈ pre, anchorMatches b = false) (ha : anchorMatches a = true) :
    (pre ++ a :: post).find? anchorMatches = some a := by
  induction pre with
  | nil => simp [List.find?, ha]
  | cons b bs ih =>
    have hb : anchorMatches b = false := hpre b (by simp)
    simp only [List.cons_append, List.find?, hb]
    exact ih fun x hx => hpre x (by simp [hx])

theorem pageLoop_bounds (stop : Bool) (ext : Nat → List Listing)
    (navOk : String → Bool) (base : String) :
    ∀ (fuel counter : Nat),
      (pageLoop stop ext navOk base fuel counter).navs.length ≤ fuel ∧
      (pageLoop stop ext navOk base fuel counter).visited.length ≤ fuel ∧
      ∀ v ∈ (pageLoop stop ext navOk base fuel counter).visited,
        counter ≤ v ∧ v < counter + fuel := by
  intro fuel
  induction fuel with
  | zero => intro counter; simp [pageLoop]
  | succ f ih =>
    intro counter
    by_cases he : (stop && (ext counter).isEmpty) = true
    · simp only [pageLoop, he, if_true]
      refine ⟨by simp, by simp, ?_⟩
      intro v hv
      simp only [List.mem_singleton] at hv
      omega
    · by_cases hn : navOk (pageUrl base (counter + 1)) = true
      · simp only [pageLoop, he, if_false, hn, if_true]
        obtain ⟨h1, h2, h3⟩ := ih (counter + 1)
        refine ⟨by simpa using Nat.succ_le_succ h1,
          by simpa using Nat.succ_le_succ h2, ?_⟩
        intro v hv
        simp at hv
        rcases hv with rfl | hv
        · omega
        · have := h3 v hv; omega
      · simp only [pageLoop, he, if_false, hn]
        refine ⟨by simp, by simp, ?_⟩
        intro v hv
        simp at hv
        omega

theorem pageLoop_stop_eq (ext : Nat → List Listing) (navOk : String → Bool)
    (base : String) (k : Nat) (hk : ext k = []) :
    ∀ (fuel counter : Nat), counter ≤ k → k < counter + fuel →
      (∀ j, counter ≤ j → j < k → ext j ≠ []) →
      (∀ j, counter < j → j ≤ k → navOk (pageUrl base j) = true) →
      pageLoop true ext navOk base fuel counter =
        ⟨concatMap ext (cursorRange counter (k - counter)),
         (cursorRange (counter + 1) (k - counter)).map (pageUrl base),
         cursorRange counter (k - counter + 1), none⟩ := by
  intro fuel
  induction fuel with
  | zero => intro counter h1 h2 _ _; omega
  | succ f ih =>
    intro counter h1 h2 hne hnav
    rcases Nat.eq_or_lt_of_le h1 with rfl | hlt
    · simp [pageLoop, hk, Nat.sub_self, cursorRange, concatMap]
    · have hne1 : ext counter ≠ [] := hne counter le_rfl hlt
      have he : (true && (ext counter).isEmpty) = false := by
        simpa using hne1
      have hn : navOk (pageUrl base (counter + 1)) = true :=
        hnav (counter + 1) (by omega) (by omega)
      have ihres := ih (counter + 1) (by omega) (by omega)
        (fun j hj1 hj2 => hne j (by omega) hj2)
        (fun j hj1 hj2 => hnav j (by omega) hj2)
      have hm : k - counter = (k - (counter + 1)) + 1 := by omega
      simp only [pageLoop, he, Bool.false_eq_true, if_false, hn, if_true, ihres, hm]
      simp [cursorRange, concatMap]

theorem scrollRun_stopped_mono (h : Nat → Nat) (n : Nat)
    (hs : (scrollRun h n).stopped = true) :
    (scrollRun h (n + 1)).stopped = true := by
  simp [scrollRun, scrollStep, hs]

theorem scrollRun_total (h : Nat → Nat) :
    ∀ n, (scrollRun h n).stopped = false → (scrollRun h n).total = 100 * n := by
  intro n
  induction n with
  | zero => intro _; simp [scrollRun]
  | succ n ih =>
    intro hs
    by_cases hp : (scrollRun h n).stopped = true
    · exact absurd (scrollRun_stopped_mono h n hp) (by simp [hs])
    · have hp' : (scrollRun h n).stopped = false := by simpa using hp
      simp [scrollRun, scrollStep, hp', ih hp']
      ring

theorem scrollRun_not_stopped_iff (h : Nat → Nat) :
    ∀ n, (scrollRun h n).stopped = false ↔ ∀ m, m < n → 100 * (m + 1) < h m := by
  intro n
  induction n with
  | zero => simp [scrollRun]
  | succ n ih =>
    constructor
    · intro hs
      by_cases hp : (scrollRun h n).stopped = true
      · exact absurd (scrollRun_stopped_mono h n hp) (by simp [hs])
      · have hp' : (scrollRun h n).stopped = false := by simpa using hp
        have htot := scrollRun_total h n hp'
        intro m hm
        rcases Nat.lt_succ_iff_lt_or_eq.mp hm with hm' | rfl
        · exact (ih.mp hp') m hm'
        · simp [scrollRun, scrollStep, hp', htot] at hs
          omega
    · intro hall
      have hp' : (scrollRun h n).stopped = false :=
        ih.mpr (fun m hm => hall m (by omega))
      have htot := scrollRun_total h n hp'
      have := hall n (by omega)
      simp [scrollRun, scrollStep, hp', htot]
      omega

theorem scrollRun_stopped_iff (h : Nat → Nat) (n : Nat) :
    (scrollRun h (n + 1)).stopped = true ↔ ∃ m, m ≤ n ∧ h m ≤ 100 * (m + 1) := by
  have hiff := scrollRun_not_stopped_iff h (n + 1)
  constructor
  · intro hs
    by_contra hc
    push_neg at hc
    have hf : (scrollRun h (n + 1)).stopped = false :=
      hiff.mpr (fun m hm => by have := hc m (by omega); omega)
    simp [hs] at hf
  · rintro ⟨m, hm, hle⟩
    by_contra hs
    have hs' : (scrollRun h (n + 1)).stopped = false := by
      cases hb : (scrollRun h (n + 1)).stopped
      · rfl
      · exact absurd hb hs
    have := hiff.mp hs' m (by omega)
    omega

/-! ## Claims -/

/-- C1: the claim says the Browser Session is released exactly once on every
exit path.  The code closes the browser only on the success path: evaluating
the orchestrator shows one `browser.close()` on a success run, but zero on a
forced `TargetNotFound` and zero on a forced `NavigationError` mid-pagination,
in both the `scrape.ts` and the controller variant — the 500 error is surfaced
with the browser still running. -/
theorem c1_session_not_released_on_failure :
    ((scrapeCoreS envSuccess "top home listings" "Chicago").closes = 1 ∧
     (scrapeCoreS envSuccess "top home listings" "Chicago").status = 200) ∧
    ((scrapeCoreS envTNF "top home listings" "Chicago").launches = 1 ∧
     (scrapeCoreS envTNF "top home listings" "Chicago").closes = 0 ∧
     (scrapeCoreS envTNF "top home listings" "Chicago").status = 500) ∧
    ((scrapeCoreS envNavFail "top home listings" "Chicago").launches = 1 ∧
     (scrapeCoreS envNavFail "top home listings" "Chicago").closes = 0 ∧
     (scrapeCoreS envNavFail "top home listings" "Chicago").status = 500) ∧
    ((scrapeCoreC envTNF "top home listings" "Chicago").launches = 1 ∧
     (scrapeCoreC envTNF "top home listings" "Chicago").closes = 0) := by
  decide

/-- C2: regardless of the stop-on-empty policy, the extractor's output and
which navigations succeed, one pagination run issues at most `maxPages` (4)
navigation requests, the extraction script runs on at most 4 pages, and every
cursor the loop body runs on lies in 1..4. -/
theorem c2_pagination_bounded (stop : Bool) (ext : Nat → List Listing)
    (navOk : String → Bool) (base : String) :
    (scrapeZillowListings stop ext navOk base).navs.length ≤ maxPages ∧
    (scrapeZillowListings stop ext navOk base).visited.length ≤ maxPages ∧
    ∀ v ∈ (scrapeZillowListings stop ext navOk base).visited,
      1 ≤ v ∧ v ≤ maxPages := by
  obtain ⟨h1, h2, h3⟩ := pageLoop_bounds stop ext navOk base maxPages 1
  refine ⟨h1, h2, fun v hv => ?_⟩
  have := h3 v hv
  have hm : maxPages = 4 := rfl
  omega

/-- C3 counterexample: with the resolved URL `"https://z/chicago-il"` (no
trailing slash) the `scrape.ts` orchestrator's first navigation targets the
normalized `"https://z/chicago-il/"`, which is not the resolved URL character
for character. -/
theorem c3_first_navigation_counterexample :
    envNoSlash.resolved = some "https://z/chicago-il" ∧
    (scrapeCoreS envNoSlash "top home listings" "Chicago").navs.head? =
      some "https://z/chicago-il/" ∧
    ("https://z/chicago-il/" : String) ≠ "https://z/chicago-il" := by
  refine ⟨rfl, by decide, by decide⟩

/-- C3 amended: if the Search Resolver returns a URL, the controller variant's
first navigation targets exactly that URL, while the `scrape.ts` variant's
first navigation targets the URL normalized to end with a trailing slash —
equal to the resolved URL exactly when it already ends with `"/"`. -/
theorem c3_first_navigation_amended (env : ScrapeEnv) (q c url : String)
    (hl : env.launchOk = true) (hr : env.resolved = some url) :
    (scrapeCoreC env q c).navs.head? = some url ∧
    (scrapeCoreS env q c).navs.head? = some (normalizeUrl url) ∧
    (strEndsWith url "/" = true → normalizeUrl url = url) := by
  refine ⟨?_, ?_, fun h => by simp [normalizeUrl, h]⟩
  · simp only [scrapeCoreC, hl, if_true, hr]
    by_cases hn : env.navOk url = true
    · simp only [hn, if_true]
      cases hfail : (scrapeZillowListings false env.ext env.navOk url).navFail <;> simp
    · simp [hn]
  · simp only [scrapeCoreS, hl, if_true, hr]
    by_cases hn : env.navOk (normalizeUrl url) = true
    · simp only [hn, if_true]
      cases hfail :
        (scrapeZillowListings true env.ext env.navOk (normalizeUrl url)).navFail <;> simp
    · simp [hn]

/-- C3 witness: the amended statement at a concrete environment whose resolved
URL already ends with a slash. -/
theorem c3_first_navigation_witness :
    (scrapeCoreC envSuccess "q" "c").navs.head? = some "https://z/chicago-il/" ∧
    (scrapeCoreS envSuccess "q" "c").navs.head? =
      some (normalizeUrl "https://z/chicago-il/") ∧
    (strEndsWith "https://z/chicago-il/" "/" = true →
      normalizeUrl "https://z/chicago-il/" = "https://z/chicago-il/") :=
  c3_first_navigation_amended envSuccess "q" "c" "https://z/chicago-il/" rfl rfl

/-- C4 counterexample: a resolved URL already ending in two path separators is
left unchanged by the normalization, so the normalized base does not end with
exactly one trailing separator. -/
theorem c4_normalization_counterexample :
    normalizeUrl "https://z/chicago-il//" = "https://z/chicago-il//" ∧
    endsWithOneSep (normalizeUrl "https://z/chicago-il//") = false := by
  constructor <;> decide

/-- C4 amended: the resolved base URL is normalized to end with at least one
trailing path separator — one is appended exactly when the URL does not
already end with `"/"`, and a URL already ending in one or more separators is
left unchanged — and the page-`n` URL is the normalized base followed by
`"n_p/"`. -/
theorem c4_normalization_amended (u : String) :
    strEndsWith (normalizeUrl u) "/" = true ∧
    (strEndsWith u "/" = true → normalizeUrl u = u) ∧
    (strEndsWith u "/" = false → normalizeUrl u = u ++ "/") ∧
    (∀ n : Nat, pageUrl (normalizeUrl u) n = normalizeUrl u ++ toString n ++ "_p/") :=
  ⟨normalizeUrl_endsWith u, fun h => by simp [normalizeUrl, h],
   fun h => by simp [normalizeUrl, h], fun _ => rfl⟩

/-- C5: in the stop-on-empty variant, if pages 1..k-1 are non-empty, page k
(k ≤ 4) extracts no records, and the navigations up to page k succeed, the run
halts at page k: the aggregate equals the concatenation of pages 1..k-1, the
only navigations issued target pages 2..k (none later), the extraction script
ran on cursors 1..k only, and no navigation failure occurred. -/
theorem c5_stop_on_empty (ext : Nat → List Listing) (navOk : String → Bool)
    (base : String) (k : Nat) (hk1 : 1 ≤ k) (hk4 : k ≤ maxPages) (hk : ext k = [])
    (hne : ∀ j, 1 ≤ j → j < k → ext j ≠ [])
    (hnav : ∀ j, 2 ≤ j → j ≤ k → navOk (pageUrl base j) = true) :
    (scrapeZillowListings true ext navOk base).listings =
      concatMap ext (cursorRange 1 (k - 1)) ∧
    (scrapeZillowListings true ext navOk base).navs =
      (cursorRange 2 (k - 1)).map (pageUrl base) ∧
    (scrapeZillowListings true ext navOk base).visited = cursorRange 1 k ∧
    (scrapeZillowListings true ext navOk base).navFail = none := by
  have hm : maxPages = 4 := rfl
  have heq := pageLoop_stop_eq ext navOk base k hk maxPages 1 hk1 (by omega)
    (fun j h1 h2 => hne j h1 h2) (fun j h1 h2 => hnav j (by omega) h2)
  have hkk : k - 1 + 1 = k := by omega
  simp [scrapeZillowListings, heq, hkk]

/-- C5 witness: page 1 yields one record and page 2 none, with all navigations
succeeding — the aggregate is page 1's records, the only navigation issued is
to page 2, and the loop visited cursors 1 and 2 only. -/
theorem c5_stop_on_empty_witness :
    (scrapeZillowListings true extStopW (fun _ => true) "https://z/chi/").listings =
      concatMap extStopW (cursorRange 1 (2 - 1)) ∧
    (scrapeZillowListings true extStopW (fun _ => true) "https://z/chi/").navs =
      (cursorRange 2 (2 - 1)).map (pageUrl "https://z/chi/") ∧
    (scrapeZillowListings true extStopW (fun _ => true) "https://z/chi/").visited =
      cursorRange 1 2 ∧
    (scrapeZillowListings true extStopW (fun _ => true) "https://z/chi/").navFail =
      none :=
  c5_stop_on_empty extStopW (fun _ => true) "https://z/chi/" 2 (by decide) (by decide)
    (by decide)
    (fun j h1 h2 => by
      have : j = 1 := by omega
      subst this
      simp [extStopW])
    (fun _ _ _ => rfl)

/-- C6: the Listing Extractor emits exactly one record per card, in document
order — the output has the same length as the card list and its `i`-th record
is the extraction of the `i`-th card — and a card with no extractable field
still yields a record with every field absent. -/
theorem c6_extractor_one_record_per_card (w : Bool) (r : String → String)
    (cards : List Card) :
    (extractListings w r cards).length = cards.length ∧
    (∀ i : Nat, (extractListings w r cards).get? i =
      (cards.get? i).map (extractCard w r)) ∧
    extractCard w r ⟨none, none, none, []⟩ = ⟨none, none, none, none, none⟩ := by
  refine ⟨?_, ?_, ?_⟩
  · simp [extractListings_eq_map]
  · intro i
    simp [extractListings_eq_map, List.get?_eq_getElem?, List.getElem?_map]
  · simp [extractCard, cleanText, resolveLink, nthText]

/-- C7: the Search Resolver scans the result anchors in document order and
returns the `href` of the first whose text contains `"Zillow"` (case-sensitive
substring), and returns absence when no anchor's text contains it. -/
theorem c7_resolver_first_match (pre post : List Anchor) (a : Anchor)
    (hpre : ∀ b ∈ pre, anchorMatches b = false) (ha : anchorMatches a = true) :
    getZillowURL (pre ++ a :: post) = a.href ∧
    ∀ l : List Anchor, (∀ b ∈ l, anchorMatches b = false) → getZillowURL l = none := by
  constructor
  · simp [getZillowURL, find?_first_match pre post a hpre ha]
  · intro l hl
    have hn : l.find? anchorMatches = none :=
      List.find?_eq_none.mpr (fun x hx => by simp [hl x hx])
    simp [getZillowURL, hn]

/-- C7 witness: among three anchors the second is the first whose text
contains `"Zillow"`, and its `href` is returned. -/
theorem c7_resolver_first_match_witness :
    getZillowURL ([⟨some "Best homes for sale", some "u1"⟩] ++
      (⟨some "Homes | Zillow", some "u2"⟩ : Anchor) ::
        [⟨some "Zillow two", some "u3"⟩]) = some "u2" :=
  (c7_resolver_first_match [⟨some "Best homes for sale", some "u1"⟩]
    [⟨some "Zillow two", some "u3"⟩] ⟨some "Homes | Zillow", some "u2"⟩
    (by decide) (by decide)).1

/-- C8 counterexample: the claim says any height sequence that grows without
bound makes the scroll loop run forever; `slowGrowth` grows without bound yet
the loop stops on its second tick, because the accumulated 100 px per tick
overtakes a height growing by 1 px per tick. -/
theorem c8_unbounded_growth_counterexample :
    unboundedSeq slowGrowth ∧ (scrollRun slowGrowth 2).stopped = true := by
  constructor
  · intro B
    exact ⟨B, by simp [slowGrowth]⟩
  · decide

/-- C8 amended: the loop accumulates exactly 100 px per tick while running;
it has stopped within `n + 1` ticks exactly when at some earlier tick the
accumulated distance reached the height read at that tick; it never stops
when the height exceeds the accumulated distance at every tick (so
non-termination needs the height to outgrow 100 px per tick, not merely to be
unbounded); and for any eventually constant height sequence it terminates. -/
theorem c8_scroll_convergence_amended (h : Nat → Nat) :
    (∀ n, (scrollRun h n).stopped = false → (scrollRun h n).total = 100 * n) ∧
    (∀ n, (scrollRun h (n + 1)).stopped = true ↔
      ∃ m, m ≤ n ∧ h m ≤ 100 * (m + 1)) ∧
    ((∀ n, 100 * (n + 1) < h n) → ∀ n, (scrollRun h n).stopped = false) ∧
    (∀ N c, (∀ n, N ≤ n → h n = c) → ∃ n, (scrollRun h n).stopped = true) := by
  refine ⟨scrollRun_total h, scrollRun_stopped_iff h, ?_, ?_⟩
  · intro hfast n
    exact (scrollRun_not_stopped_iff h n).mpr (fun m _ => hfast m)
  · intro N c hconst
    by_contra hc
    push_neg at hc
    have hall : ∀ n, (scrollRun h n).stopped = false := by
      intro n
      cases hb : (scrollRun h n).stopped
      · rfl
      · exact absurd hb (hc n)
    have hkey : ∀ m, 100 * (m + 1) < h m := fun m =>
      (scrollRun_not_stopped_iff h (m + 1)).mp (hall (m + 1)) m (by omega)
    have h1 := hkey (N + c)
    have h2 := hconst (N + c) (by omega)
    omega

/-- C9: a request body missing `query` or missing `city` is answered 400 with
the validation payload before any core step: the browser is never launched and
the Search Resolver is never invoked, in both handler variants. -/
theorem c9_validation_rejects_before_core (env : ScrapeEnv) (b : RequestBody)
    (hmiss : b.query = none ∨ b.city = none) :
    scrapeHandlerS env b = ⟨400, validationErr, 0, 0, 0, []⟩ ∧
    scrapeHandlerC env b = ⟨400, validationErr, 0, 0, 0, []⟩ := by
  have hf : (jsFalsy b.query || jsFalsy b.city) = true := by
    rcases hmiss with h | h <;> simp [jsFalsy, h]
  constructor <;> simp [scrapeHandlerS, scrapeHandlerC, hf]

/-- C9 witness: a body with no `query` field is rejected with 400, zero
launches and zero resolver calls. -/
theorem c9_validation_witness :
    scrapeHandlerS envSuccess ⟨none, some "New York"⟩ =
      ⟨400, validationErr, 0, 0, 0, []⟩ ∧
    scrapeHandlerC envSuccess ⟨none, some "New York"⟩ =
      ⟨400, validationErr, 0, 0, 0, []⟩ :=
  c9_validation_rejects_before_core envSuccess ⟨none, some "New York"⟩ (Or.inl rfl)

/-- C10: for each of price, address, beds and baths, a child element whose
text trims to the empty string yields an absent field, and no emitted field is
ever the empty string. -/
theorem c10_empty_text_becomes_null (w : Bool) (r : String → String) (card : Card) :
    (∀ t, card.priceText = some t → jsTrim t = "" →
      (extractCard w r card).price = none) ∧
    (∀ t, card.addrText = some t → jsTrim t = "" →
      (extractCard w r card).address = none) ∧
    (∀ t, nthText card.details 0 = some t → jsTrim t = "" →
      (extractCard true r card).beds = none) ∧
    (∀ t, nthText card.details 1 = some t → jsTrim t = "" →
      (extractCard true r card).baths = none) ∧
    (extractCard w r card).price ≠ some "" ∧
    (extractCard w r card).address ≠ some "" ∧
    (extractCard w r card).beds ≠ some "" ∧
    (extractCard w r card).baths ≠ some "" := by
  refine ⟨?_, ?_, ?_, ?_, ?_, ?_, ?_, ?_⟩
  · intro t ht htrim
    simp [extractCard, ht, cleanText_of_blank t htrim]
  · intro t ht htrim
    simp [extractCard, ht, cleanText_of_blank t htrim]
  · intro t ht htrim
    simp [extractCard, ht, cleanText_of_blank t htrim]
  · intro t ht htrim
    simp [extractCard, ht, cleanText_of_blank t htrim]
  · exact cleanText_ne_emptyStr _
  · exact cleanText_ne_emptyStr _
  · cases w
    · simp [extractCard]
    · simpa [extractCard] using cleanText_ne_emptyStr (nthText card.details 0)
  · cases w
    · simp [extractCard]
    · simpa [extractCard] using cleanText_ne_emptyStr (nthText card.details 1)

end WebScraping
